import Mathlib

/-!
Verification of the transcript-extraction core of the VIDEOIQ repository
(`src/extract_transcript.py`, class `YouTubeTranscriptExtractor`).

Python strings are embedded as `List Char`; Python floats that carry
transcript timestamps are embedded as rationals; fallible operations
(network calls, `json.loads`, `int(...)`) are embedded as `Option`-valued
environments or parsers, with every swallowed exception made explicit.
-/

namespace VideoIQ

/-- Python strings are modelled as lists of characters. -/
abbrev Str := List Char

/-- Converts a Lean string literal to the `List Char` model. -/
def str (s : String) : Str := s.toList

/-- The ASCII whitespace characters stripped by Python's `str.strip()` and
split on by `str.split()`. -/
def isPySpace (c : Char) : Bool :=
  c == ' ' || c == '\t' || c == '\n' || c == '\r' || c == '\x0b' || c == '\x0c'

/-- Left part of Python `str.strip()`. -/
def pyStripLeft (s : Str) : Str := s.dropWhile isPySpace

/-- Right part of Python `str.strip()`. -/
def pyStripRight (s : Str) : Str := (s.reverse.dropWhile isPySpace).reverse

/-- Python `str.strip()`: removes whitespace from both ends. -/
def pyStrip (s : Str) : Str := pyStripLeft (pyStripRight s)

/-- Joins a list of strings with a single separator character between
consecutive elements (Python `sep.join(parts)` for a one-character `sep`). -/
def joinWith (sep : Char) : List Str → Str
  | [] => []
  | [t] => t
  | t :: ts => t ++ sep :: joinWith sep ts

/-! ## Identifier parsing: `extract_video_id` (src/extract_transcript.py:54-74)

The method runs `re.search` with two patterns in order and returns the first
capture group found:

  pattern 1: `(?:youtube\.com\/watch\?v=|youtu\.be\/|youtube\.com\/embed\/|youtube\.com\/v\/)([^&\n?#]+)`
  pattern 2: `youtube\.com\/watch\?.*v=([^&\n?#]+)`

`re.search` semantics are embedded directly: the leftmost position at which
the pattern matches wins; alternatives are tried left to right; the final
greedy character class takes the maximal non-empty run; pattern 2's greedy
`.*` (which cannot cross a newline) selects the last feasible `v=`.
-/

/-- Membership in the regex capture class `[^&\n?#]`. -/
def isCaptureChar (c : Char) : Bool :=
  !(c == '&' || c == '\n' || c == '?' || c == '#')

/-- The four literal alternatives of the first pattern's non-capturing group,
in the order the regex alternation tries them. -/
def altLits : List Str :=
  [str "youtube.com/watch?v=", str "youtu.be/",
   str "youtube.com/embed/", str "youtube.com/v/"]

/-- Attempts the first pattern at one fixed position: the first alternative
that is a literal prefix of the remaining input and is followed by at least
one capture-class character matches, and the capture is the maximal run of
capture-class characters after it. -/
def tryAltsAt (s : Str) : Option Str :=
  altLits.findSome? fun lit =>
    let cap := (s.drop lit.length).takeWhile isCaptureChar
    if lit.isPrefixOf s && !cap.isEmpty then some cap else none

/-- `re.search` for the first pattern: scan positions left to right. -/
def searchPat1 : Str → Option Str
  | [] => none
  | c :: rest =>
    match tryAltsAt (c :: rest) with
    | some cap => some cap
    | none => searchPat1 rest

/-- One step of the greedy `v=` scan: when the current position starts the
literal `v=` and a non-empty capture follows, that capture replaces `best`. -/
def vCaptureAt (c : Char) (rest : Str) (best : Option Str) : Option Str :=
  match rest with
  | e :: tail =>
    if c == 'v' && e == '=' then
      if (tail.takeWhile isCaptureChar).isEmpty then best
      else some (tail.takeWhile isCaptureChar)
    else best
  | [] => best

/-- Greedy `.*v=([^&\n?#]+)` after the literal of the second pattern:
`best` accumulates the capture of the last `v=` seen so far; the dot cannot
cross a newline, so scanning stops at the first `'\n'`. -/
def lastVCapture : Str → Option Str → Option Str
  | [], best => best
  | c :: rest, best =>
    if c == '\n' then best
    else lastVCapture rest (vCaptureAt c rest best)

/-- `re.search` for the second pattern `youtube\.com\/watch\?.*v=([^&\n?#]+)`. -/
def searchPat2 : Str → Option Str
  | [] => none
  | c :: rest =>
    if (str "youtube.com/watch?").isPrefixOf (c :: rest) then
      match lastVCapture ((c :: rest).drop 18) none with
      | some cap => some cap
      | none => searchPat2 rest
    else searchPat2 rest

/-- `extract_video_id` (src/extract_transcript.py:54-74): tries the two
patterns in order and returns the first capture; `None` if neither matches. -/
def extract_video_id (url : Str) : Option Str :=
  match searchPat1 url with
  | some v => some v
  | none => searchPat2 url

/-! ## ISO-8601 duration parsing (src/extract_transcript.py:105-126)

Inside `get_video_info_from_page`, the `content` attribute of the
`<meta itemprop="duration">` tag is parsed by hand: strip a literal `"PT"`
prefix, then split on `'H'`, `'M'`, `'S'` in turn, accumulating
hours/minutes/seconds.  The whole block sits in a `try/except: pass`, so a
failing `int(...)` aborts the block but keeps whatever the local `duration`
variable has accumulated so far.
-/

/-- Value of a non-empty run of decimal digits. -/
def digitsVal (ds : Str) : Nat :=
  ds.foldl (fun a c => 10 * a + (c.toNat - '0'.toNat)) 0

/-- Python `int(s)` on a string: surrounding whitespace is ignored, an
optional single sign is allowed, and the remainder must be a non-empty run
of decimal digits; anything else raises `ValueError` (modelled as `none`). -/
def pyInt (s : Str) : Option Int :=
  match pyStrip s with
  | '-' :: ds =>
    if !ds.isEmpty && ds.all Char.isDigit then some (-(digitsVal ds : Int)) else none
  | '+' :: ds =>
    if !ds.isEmpty && ds.all Char.isDigit then some (digitsVal ds : Int) else none
  | ds =>
    if !ds.isEmpty && ds.all Char.isDigit then some (digitsVal ds : Int) else none

/-- Python `s.split(sep)` for a one-character separator: splits at every
occurrence, keeping empty pieces (`"2M".split('M') = ["2", ""]`). -/
def pySplit (sep : Char) : Str → List Str
  | [] => [[]]
  | c :: rest =>
    match pySplit sep rest with
    | [] => [[]]
    | h :: t => if c == sep then [] :: h :: t else (c :: h) :: t

/-- Seconds step: `if 'S' in s: duration += int(s.replace('S', ''))`.
A failing `int` aborts with the accumulated value. -/
def secondsStep (s : Str) (acc : Int) : Int :=
  if s.contains 'S' then
    match pyInt (s.filter fun c => !(c == 'S')) with
    | some n => acc + n
    | none => acc
  else acc

/-- Minutes step: `if 'M' in s: parts = s.split('M'); duration += int(parts[0]) * 60;
s = parts[1]`, then the seconds step.  A failing `int` aborts. -/
def minutesStep (s : Str) (acc : Int) : Int :=
  if s.contains 'M' then
    match pySplit 'M' s with
    | p0 :: p1 :: _ =>
      match pyInt p0 with
      | some n => secondsStep p1 (acc + n * 60)
      | none => acc
    | _ => acc
  else secondsStep s acc

/-- Hours step: `if 'H' in s: parts = s.split('H'); duration += int(parts[0]) * 3600;
s = parts[1]`, then the minutes step.  A failing `int` aborts. -/
def hoursStep (s : Str) (acc : Int) : Int :=
  if s.contains 'H' then
    match pySplit 'H' s with
    | p0 :: p1 :: _ =>
      match pyInt p0 with
      | some n => minutesStep p1 (acc + n * 3600)
      | none => acc
    | _ => acc
  else minutesStep s acc

/-- The ISO-8601 duration block of `get_video_info_from_page`
(src/extract_transcript.py:111-124): `duration` stays 0 unless the string
starts with `"PT"`; the H/M/S components are consumed in turn; an exception
inside the block is swallowed, keeping the partial sum. -/
def parse_iso8601_duration (s : Str) : Int :=
  if (str "PT").isPrefixOf s then hoursStep (s.drop 2) 0 else 0

/-! ## Transcript segments and the two renderings
(src/extract_transcript.py:336-379)

`format_transcript` and `get_plain_text` accept both
`FetchedTranscriptSnippet` objects (attributes always present) and plain
dicts (keys read with `.get` and a default).  Start offsets are Python
numbers, embedded as rationals.
-/

/-- One transcript segment as the two renderers see it: an attribute-bearing
snippet object, or a dict whose keys may be absent. -/
inductive Segment
  | obj (start : ℚ) (duration : ℚ) (text : Str)
  | dict (start : Option ℚ) (duration : Option ℚ) (text : Option Str)
deriving DecidableEq

/-- The start offset the renderers use: the attribute for objects,
`segment.get('start', 0)` for dicts. -/
def Segment.startVal : Segment → ℚ
  | .obj s _ _ => s
  | .dict s _ _ => s.getD 0

/-- The text the renderers use: the attribute for objects,
`segment.get('text', '')` for dicts. -/
def Segment.textVal : Segment → Str
  | .obj _ _ t => t
  | .dict _ _ t => t.getD []

/-- Python `int(q // 60)` for a number `q`: floor division.  Computed on the
rational's numerator and denominator so that the kernel can evaluate it. -/
def pyFloorDiv60 (q : ℚ) : Int := Int.fdiv q.num (60 * q.den)

/-- Python `int(q % 60)`: `q % 60` is `q - 60 * (q // 60)`, which is
non-negative, so `int` truncation is the floor. -/
def pyMod60 (q : ℚ) : Int := Int.fdiv q.num q.den - 60 * pyFloorDiv60 q

/-- Python `f"{n:02d}"`: decimal rendering zero-padded to width 2. -/
def fmt02d (n : Int) : Str :=
  if n < 0 then '-' :: Nat.toDigits 10 n.natAbs
  else
    let ds := Nat.toDigits 10 n.toNat
    List.replicate (2 - ds.length) '0' ++ ds

/-- The timestamped line a segment contributes inside the loop of
`format_transcript`: `f"[{minutes:02d}:{seconds:02d}] {text}\n"`. -/
def segLine (g : Segment) : Str :=
  '[' :: fmt02d (pyFloorDiv60 g.startVal) ++
    ':' :: fmt02d (pyMod60 g.startVal) ++
    ']' :: ' ' :: g.textVal ++ ['\n']

/-- The accumulation loop of `format_transcript`
(src/extract_transcript.py:343-360): `formatted_text += ...` per segment. -/
def formatLoop (ts : List Segment) (include_timestamps : Bool) : Str :=
  ts.foldl
    (fun acc g =>
      if include_timestamps then acc ++ segLine g else acc ++ g.textVal ++ [' '])
    []

/-- `format_transcript` (src/extract_transcript.py:336-362): empty input
yields `""`; otherwise the accumulated text is returned `.strip()`-ped. -/
def format_transcript (transcript : List Segment) (include_timestamps : Bool) : Str :=
  if transcript.isEmpty then []
  else pyStrip (formatLoop transcript include_timestamps)

/-- `get_plain_text` (src/extract_transcript.py:364-379): empty input yields
`""`; otherwise the segment texts joined by `" ".join`. -/
def get_plain_text (transcript : List Segment) : Str :=
  if transcript.isEmpty then []
  else joinWith ' ' (transcript.map Segment.textVal)

/-! ## The resolver: `extract_transcript_youtube_api`
(src/extract_transcript.py:203-334)

The YouTube Transcript API collaborator is embedded as an environment: the
`list_transcripts` call either raises (`none`) or returns the track list;
each track's `fetch()` either raises (`none`) or returns its segments, and
`translate(code).fetch()` likewise per target code.
-/

/-- One caption track as returned by `list_transcripts`, together with the
outcomes of its fallible collaborator calls. -/
structure Track where
  language : Str
  language_code : Str
  is_generated : Bool
  is_translatable : Bool
  /-- Outcome of `transcript.fetch()`; `none` means the call raises. -/
  fetchRes : Option (List Segment)
  /-- Outcome of `transcript.translate(code).fetch()` per target code;
  `none` means one of the two calls raises. -/
  translateRes : Str → Option (List Segment)

/-- The hard-coded default language priority list used when the caller
passes `languages=None` (src/extract_transcript.py:232-274). -/
def defaultLanguages : List Str :=
  [str "en", str "en-US", str "en-GB", str "en-CA", str "en-AU",
   str "es", str "es-ES", str "es-MX", str "es-AR",
   str "fr", str "fr-FR", str "fr-CA",
   str "de", str "de-DE", str "de-AT", str "de-CH",
   str "it", str "it-IT",
   str "pt", str "pt-BR", str "pt-PT",
   str "ru", str "ru-RU",
   str "ja", str "ja-JP",
   str "ko", str "ko-KR",
   str "zh", str "zh-CN", str "zh-TW", str "zh-HK",
   str "hi", str "hi-IN",
   str "ar", str "ar-SA",
   str "nl", str "nl-NL", str "nl-BE",
   str "sv", str "sv-SE",
   str "no", str "nb-NO", str "nn-NO",
   str "da", str "da-DK",
   str "fi", str "fi-FI",
   str "pl", str "pl-PL",
   str "tr", str "tr-TR",
   str "he", str "he-IL",
   str "th", str "th-TH",
   str "vi", str "vi-VN",
   str "id", str "id-ID",
   str "ms", str "ms-MY",
   str "tl", str "tl-PH",
   str "uk", str "uk-UA",
   str "cs", str "cs-CZ",
   str "sk", str "sk-SK",
   str "hu", str "hu-HU",
   str "ro", str "ro-RO",
   str "bg", str "bg-BG",
   str "hr", str "hr-HR",
   str "sr", str "sr-RS",
   str "sl", str "sl-SI",
   str "et", str "et-EE",
   str "lv", str "lv-LV",
   str "lt", str "lt-LT",
   str "el", str "el-GR",
   str "mt", str "mt-MT"]

/-- Innermost loop of the preference scan (src/extract_transcript.py:285-293):
within one track group, the first track whose `language_code` equals the
preferred code and whose `fetch()` succeeds; a fetch failure `continue`s. -/
def scanTracks (group : List Track) (lc : Str) (ty : Str) :
    Option (List Segment × Str × Str) :=
  group.findSome? fun t =>
    if t.language_code = lc then (t.fetchRes).map fun segs => (segs, t.language, ty)
    else none

/-- Middle loop: `for lang_code in languages` inside one track group. -/
def scanLangs (group : List Track) (ty : Str) (langs : List Str) :
    Option (List Segment × Str × Str) :=
  langs.findSome? fun lc => scanTracks group lc ty

/-- Outer loop of the preference scan (src/extract_transcript.py:283-293):
`for transcript_group, transcript_type in transcript_sources` — the track
groups are walked in the OUTER loop and the caller's language preferences in
the middle loop. -/
def scanSources (sources : List (List Track × Str)) (langs : List Str) :
    Option (List Segment × Str × Str) :=
  sources.findSome? fun gt => scanLangs gt.1 gt.2 langs

/-- The translation loop (src/extract_transcript.py:308-319): every track,
translatable ones only, against the top 5 preferred languages; `lastTy` is
the leftover value of the loop variable `transcript_type`. -/
def translationScan (all : List Track) (langs : List Str) (lastTy : Str) :
    Option (List Segment) × Str × Str :=
  match
    all.findSome? fun t =>
      if t.is_translatable then
        (langs.take 5).findSome? fun lc =>
          (t.translateRes lc).map fun segs =>
            (segs, t.language ++ str " (translated to " ++ lc ++ str ")",
             str "Translated " ++ lastTy)
      else none
  with
  | some (segs, l, ty) => (some segs, l, ty)
  | none => (none, [], [])

/-- `extract_transcript_youtube_api` (src/extract_transcript.py:203-334).
`catalog = none` means `list_transcripts` raised; every handler returns
`(None, "", "")`.  Otherwise: partition into manual and generated tracks,
scan `transcript_sources × languages × group` for an exact code match with a
successful fetch; failing that, fetch the first available track (manual
before generated); failing that, try translations; failing that,
`(None, "", "")`. -/
def extract_transcript_youtube_api (catalog : Option (List Track))
    (languages : Option (List Str)) (prefer_manual : Bool) :
    Option (List Segment) × Str × Str :=
  match catalog with
  | none => (none, [], [])
  | some tl =>
    let manual := tl.filter fun t => !t.is_generated
    let generated := tl.filter fun t => t.is_generated
    let langs := languages.getD defaultLanguages
    let sources : List (List Track × Str) :=
      if prefer_manual then
        [(manual, str "Manual"), (generated, str "Auto-generated")]
      else
        [(generated, str "Auto-generated"), (manual, str "Manual")]
    -- after the source loop runs to completion, the Python loop variable
    -- `transcript_type` holds the last group's label
    let lastTy := if prefer_manual then str "Auto-generated" else str "Manual"
    match scanSources sources langs with
    | some (segs, l, ty) => (some segs, l, ty)
    | none =>
      let all := manual ++ generated
      match all with
      | [] => translationScan all langs lastTy
      | t0 :: _ =>
        -- line 299 reassigns `transcript_type` before the fallback fetch,
        -- so a failed fallback leaves that value for the translation loop
        let t0Ty := if !t0.is_generated then str "Manual" else str "Auto-generated"
        match t0.fetchRes with
        | some segs => (some segs, t0.language, t0Ty)
        | none => translationScan all langs t0Ty

/-- The track-availability snapshot built by `get_available_transcripts`
(src/extract_transcript.py:162-201). -/
structure AvailableInfo where
  manual : List Track
  generated : List Track
  translatable : List Track
deriving Inhabited

/-- `get_available_transcripts`: partitions the catalog; if
`list_transcripts` raises, all three lists are empty. -/
def get_available_transcripts (catalog : Option (List Track)) : AvailableInfo :=
  match catalog with
  | none => ⟨[], [], []⟩
  | some tl =>
    ⟨tl.filter (fun t => !t.is_generated), tl.filter (fun t => t.is_generated),
     tl.filter (fun t => t.is_translatable)⟩

/-! ## Metadata fetching: `get_video_info_from_page`
(src/extract_transcript.py:76-160)

The page request and the embedded-JSON parses are fallible collaborators:
the whole page fetch is `none` when the request (or anything on the success
path outside an inner `try`) raises; each `<script type="application/ld+json">`
blob is embedded pre-parsed, `none` when `json.loads` (or a field read on
its result) raises, otherwise the optional `uploadDate` string and the
optional WatchAction interaction count.
-/

/-- The parts of the fetched watch page that the extraction strategies read. -/
structure PageData where
  /-- `<meta property="og:title">` content, if the tag is found. -/
  ogTitle : Option Str
  /-- `<meta property="og:description">` content, if the tag is found. -/
  ogDesc : Option Str
  /-- `<meta itemprop="duration">`: `none` when the tag is absent; when
  present, its `content` attribute (`.get('content', '')`). -/
  durationMeta : Option Str
  /-- The `ld+json` script blobs, pre-parsed: `none` for a blob whose parse
  raises, otherwise `(uploadDate?, WatchAction count?)`. -/
  ldScripts : List (Option (Option Str × Option Nat))

/-- The dictionary returned by `get_video_info_from_page`.  The
`upload_date` and `view_count` keys are absent (`none`) on the error path
(src/extract_transcript.py:160 returns only three keys). -/
structure VideoInfo where
  title : Str
  description : Str
  duration : Int
  upload_date : Option Str
  view_count : Option Nat
deriving DecidableEq

/-- The JSON-LD loop (src/extract_transcript.py:128-148): the first blob
that parses supplies `uploadDate` and the WatchAction view count (each kept
at its default `''` / `0` when missing) and the loop `break`s; failing blobs
are skipped. -/
def ldScan : List (Option (Option Str × Option Nat)) → Str × Nat
  | [] => ([], 0)
  | none :: rest => ldScan rest
  | some (u, v) :: _ => (u.getD [], v.getD 0)

/-- `get_video_info_from_page` (src/extract_transcript.py:76-160): on any
page-level exception, the three-key default record; otherwise each field is
extracted independently with its own default, and the duration meta tag is
parsed with `parse_iso8601_duration`. -/
def get_video_info_from_page : Option PageData → VideoInfo
  | none =>
    { title := str "Unknown Title", description := [], duration := 0
      upload_date := none, view_count := none }
  | some p =>
    { title := p.ogTitle.getD (str "Unknown Title")
      description := p.ogDesc.getD []
      duration := match p.durationMeta with
        | none => 0
        | some c => parse_iso8601_duration c
      upload_date := some (ldScan p.ldScripts).1
      view_count := some (ldScan p.ldScripts).2 }

/-! ## The orchestration entry point: `extract_and_save`
(src/extract_transcript.py:393-483)
-/

/-- Word counter for `len(plain_text.split())`: Python `split()` with no
argument splits on whitespace runs and drops empty pieces, so the length is
the number of maximal non-whitespace runs. -/
def countWordsAux : Str → Bool → Nat
  | [], _ => 0
  | c :: rest, inWord =>
    if isPySpace c then countWordsAux rest false
    else (if inWord then 0 else 1) + countWordsAux rest true

/-- `len(s.split())`. -/
def pyWordCount (s : Str) : Nat := countWordsAux s false

/-- Round-half-to-even of `n / den` for `den > 0`, on integers — the core of
Python's `round`. -/
def roundHalfEvenFrac (n den : Int) : Int :=
  let f := Int.fdiv n den
  let r := n - f * den
  if 2 * r < den then f
  else if 2 * r > den then f + 1
  else if f % 2 = 0 then f else f + 1

/-- `round(d / 60, 2)` (src/extract_transcript.py:467), returned as the
number of hundredths.  The Python computation happens in binary floating
point; this exact-rational model agrees with it on the values the code
produces except for ties invisible at two decimals. -/
def round2Hundredths (d : Int) : Int := roundHalfEvenFrac (100 * d) 60

/-- Decimal rendering of a natural number. -/
def showNat (n : Nat) : Str := Nat.toDigits 10 n

/-- Decimal rendering of a non-negative two-decimal float given as
hundredths: the integer part, a dot, and one or two fractional digits with
trailing zeros dropped (but at least one digit). -/
def showRound2Nat (k : Nat) : Str :=
  let ip := showNat (k / 100)
  let fr := k % 100
  if fr = 0 then ip ++ str ".0"
  else if fr % 10 = 0 then ip ++ '.' :: showNat (fr / 10)
  else if fr < 10 then ip ++ '.' :: '0' :: showNat fr
  else ip ++ '.' :: showNat fr

/-- How Python prints the float `round(d/60, 2)` held in
`data['duration_minutes']`, matching `repr` of a two-decimal float. -/
def showRound2 (k : Int) : Str :=
  if k < 0 then '-' :: showRound2Nat k.natAbs else showRound2Nat k.toNat

/-- The persisted record (the `data` dictionary of `extract_and_save`,
src/extract_transcript.py:453-469). -/
structure TranscriptRecord where
  video_id : Str
  url : Str
  metadata : VideoInfo
  language : Str
  ttype : Str
  available : AvailableInfo
  transcript_raw : List Segment
  transcript_formatted : Str
  transcript_plain : Str
  extracted_at : Str
  word_count : Nat
  duration_minutes_hundredths : Int
  segment_count : Nat

/-- The storage conversion (src/extract_transcript.py:439-450): snippet
objects become dicts with the three keys present; dicts are kept as-is. -/
def toStorage : Segment → Segment
  | .obj s d t => .dict (some s) (some d) (some t)
  | g => g

/-- The environment of one `extract_and_save` call: the outcomes of the
network collaborators plus the timestamps drawn from `datetime.now()`. -/
structure ExtractEnv where
  page : Option PageData
  catalog : Option (List Track)
  /-- `datetime.now().isoformat()` stored in `extracted_at`. -/
  nowIso : Str
  /-- `datetime.now().strftime('%Y%m%d_%H%M%S')` used in the filename. -/
  nowStamp : Str
  /-- The extractor's `storage_dir` (constructor default `"transcripts"`). -/
  storageDir : Str

/-- The enumerated-causes failure message (src/extract_transcript.py:427-431). -/
def notFoundMessage : Str :=
  str "Could not extract transcript. Possible reasons:\n" ++
  str "- Video has no captions/subtitles available\n" ++
  str "- Video is private or restricted\n" ++
  str "- Transcripts are disabled for this video\n" ++
  str "- Video is unavailable"

/-- The success message (src/extract_transcript.py:474-481). -/
def successMessage (r : TranscriptRecord) (filepath : Str) : Str :=
  str "Transcript extracted successfully!\n" ++
  str "Title: " ++ r.metadata.title ++ str "\n" ++
  str "Duration: " ++ showRound2 r.duration_minutes_hundredths ++ str " minutes\n" ++
  str "Language: " ++ r.language ++ str "\n" ++
  str "Type: " ++ r.ttype ++ str "\n" ++
  str "Segments: " ++ showNat r.segment_count ++ str "\n" ++
  str "Word Count: " ++ showNat r.word_count ++ str "\n" ++
  str "Saved to: " ++ filepath

/-- `extract_and_save` (src/extract_transcript.py:393-483): parse the URL
(invalid input short-circuits), fetch metadata and the track snapshot, run
the resolver, treat `None` and an empty segment list alike as failure
(`if not transcript`), otherwise build the record, save it, and return the
`(success, message, data)` triple. -/
def extract_and_save (env : ExtractEnv) (youtube_url : Str)
    (languages : Option (List Str)) (prefer_manual : Bool)
    (include_timestamps : Bool) : Bool × Str × Option TranscriptRecord :=
  match extract_video_id youtube_url with
  | none => (false, str "Invalid YouTube URL", none)
  | some vid =>
    let metadata := get_video_info_from_page env.page
    let avail := get_available_transcripts env.catalog
    match extract_transcript_youtube_api env.catalog languages prefer_manual with
    | (none, _, _) => (false, notFoundMessage, none)
    | (some transcript, language_used, ttype) =>
      if transcript.isEmpty then (false, notFoundMessage, none)
      else
        let plain := get_plain_text transcript
        let stored := transcript.map toStorage
        let record : TranscriptRecord :=
          { video_id := vid, url := youtube_url, metadata := metadata
            language := language_used, ttype := ttype, available := avail
            transcript_raw := stored
            transcript_formatted := format_transcript transcript include_timestamps
            transcript_plain := plain
            extracted_at := env.nowIso
            word_count := pyWordCount plain
            duration_minutes_hundredths := round2Hundredths metadata.duration
            segment_count := stored.length }
        let filepath := env.storageDir ++ '/' :: vid ++ '_' :: env.nowStamp ++ str ".json"
        (true, successMessage record filepath, some record)

/-! ## The three-method fallback loop, modelled from the spec

src/ contains only the first acquisition method
(`extract_transcript_youtube_api`, the catalog-mediated fetch).  The
page-embedded catalog fetch and the direct content-endpoint fetch described
by spec §4.4 belong to resolver revisions of this repository that are not
under src/, so the loop over the three methods is modelled from the spec's
words.
-/

/-- Outcome of running one acquisition method: it raises internally, or it
returns a (possibly empty) segment sequence. -/
inductive MethodOutcome
  | raises
  | returns (segs : List Segment)
deriving DecidableEq

/-- Modelled from the spec: how the resolver loop judges one method's
outcome — an internal exception is caught and counts as failure, and a
non-null but zero-length segment sequence also counts as failure. -/
def attemptOk : MethodOutcome → Option (List Segment)
  | .raises => none
  | .returns [] => none
  | .returns segs => some segs

/-- Modelled from the spec: the Transcript Resolver's fixed-priority loop
over the three acquisition methods (spec §4.4) — methods are attempted in
order until one returns a non-empty segment sequence, each method's internal
exceptions are treated as that method's failure, and NotFound (`none`) is
declared only after all three are exhausted.  Returns the result together
with the indices of the methods attempted, in order. -/
def resolveModel (o1 o2 o3 : MethodOutcome) : Option (List Segment) × List Nat :=
  match attemptOk o1 with
  | some s => (some s, [1])
  | none =>
    match attemptOk o2 with
    | some s => (some s, [1, 2])
    | none =>
      match attemptOk o3 with
      | some s => (some s, [1, 2, 3])
      | none => (none, [1, 2, 3])

/-! ## The selection order of the preference scan, spec-side definitions -/

/-- One candidate of the preference scan: a track paired with the preferred
code it is tested against and its group label; it is selected when the code
matches exactly and the fetch succeeds. -/
def candidateFetch : Track × Str × Str → Option (List Segment × Str × Str)
  | (t, lc, ty) =>
    if t.language_code = lc then t.fetchRes.map fun segs => (segs, t.language, ty)
    else none

/-- The candidate order the source code realizes, flattened: track groups
outermost, then the caller's preference list, then the tracks of the group. -/
def scanOrder (sources : List (List Track × Str)) (langs : List Str) :
    List (Track × Str × Str) :=
  sources.flatMap fun gt => langs.flatMap fun lc => gt.1.map fun t => (t, lc, gt.2)

/-- The group-outermost scan as a single pass over the flattened candidate
order. -/
def specOrderedScan (sources : List (List Track × Str)) (langs : List Str) :
    Option (List Segment × Str × Str) :=
  (scanOrder sources langs).findSome? candidateFetch

/-- The nesting order asserted by the claim (and spec §4.4 method 1): the
caller's preference list outermost, the track groups inner. -/
def claimNestScan (sources : List (List Track × Str)) (langs : List Str) :
    Option (List Segment × Str × Str) :=
  langs.findSome? fun lc => sources.findSome? fun gt => scanTracks gt.1 lc gt.2

/-! ## Concrete example tracks for witnesses and counterexamples -/

/-- A human-authored English track whose fetch succeeds. -/
def tkEnManual : Track :=
  { language := str "English", language_code := str "en", is_generated := false
    is_translatable := false, fetchRes := some [Segment.obj 0 1 (str "hello")]
    translateRes := fun _ => none }

/-- An auto-generated Spanish track whose fetch succeeds. -/
def tkEsAuto : Track :=
  { language := str "Spanish", language_code := str "es", is_generated := true
    is_translatable := false, fetchRes := some [Segment.obj 0 1 (str "hola")]
    translateRes := fun _ => none }

/-- A human-authored French track whose fetch succeeds. -/
def tkFrManual : Track :=
  { language := str "French", language_code := str "fr", is_generated := false
    is_translatable := false, fetchRes := some [Segment.obj 0 1 (str "bonjour")]
    translateRes := fun _ => none }

/-- A human-authored Spanish track whose fetch succeeds. -/
def tkEsManual : Track :=
  { language := str "Spanish", language_code := str "es", is_generated := false
    is_translatable := false, fetchRes := some [Segment.obj 0 1 (str "hola")]
    translateRes := fun _ => none }

/-! ## Remaining claim-side definitions -/

/-- The rendered line the formatted-rendering claim describes for one
segment: a `[MM:SS]` timestamp from floor-division by 60 and modulo 60,
both zero-padded to two digits, a literal space, then the text. -/
def claimTimestampLine (g : Segment) : Str :=
  '[' :: fmt02d (pyFloorDiv60 g.startVal) ++
    ':' :: fmt02d (pyMod60 g.startVal) ++
    ']' :: ' ' :: g.textVal

/-- The text is non-empty and its last character is not whitespace, so the
final `.strip()` of `format_transcript` cannot cut into it. -/
def endsClean (t : Str) : Bool :=
  match t.getLast? with
  | none => false
  | some c => !isPySpace c

/-- A character of the platform's 11-character identifiers:
alphanumeric, hyphen or underscore. -/
def isIdChar (c : Char) : Bool := c.isAlphanum || c == '-' || c == '_'

/-- The canonical watch-page URL shape embedding an identifier. -/
def watchURL (id : Str) : Str := str "https://www.youtube.com/watch?v=" ++ id

/-- The short-link URL shape embedding an identifier. -/
def shortURL (id : Str) : Str := str "https://youtu.be/" ++ id

/-- The embed URL shape embedding an identifier. -/
def embedURL (id : Str) : Str := str "https://www.youtube.com/embed/" ++ id

/-- An environment in which every external call succeeds and the catalog
holds one fetchable human English track. -/
def envHappy : ExtractEnv :=
  { page := none, catalog := some [tkEnManual], nowIso := str "2025-01-01T00:00:00"
    nowStamp := str "20250101_000000", storageDir := str "transcripts" }

/-! ## Helper lemmas -/

theorem attemptOk_raises : attemptOk MethodOutcome.raises = none := rfl

theorem attemptOk_returns_nil : attemptOk (MethodOutcome.returns []) = none := rfl

/-- A successful attempt always carries a non-empty list. -/
theorem attemptOk_ne_nil {o : MethodOutcome} {s : List Segment}
    (h : attemptOk o = some s) : s ≠ [] := by
  cases o with
  | raises => simp [attemptOk] at h
  | returns segs =>
    cases segs with
    | nil => simp [attemptOk] at h
    | cons a t => simp [attemptOk] at h; simp [← h]

theorem scanTracks_eq_findSome? (group : List Track) (lc ty : Str) :
    scanTracks group lc ty = (group.map fun t => (t, lc, ty)).findSome? candidateFetch := by
  rw [List.findSome?_map]
  induction group with
  | nil => rfl
  | cons t ts ih =>
    simp only [scanTracks, List.findSome?] at ih ⊢
    cases h : candidateFetch (t, lc, ty) <;>
      simp_all [candidateFetch, scanTracks]

theorem scanLangs_eq_findSome? (group : List Track) (ty : Str) (langs : List Str) :
    scanLangs group ty langs =
      (langs.flatMap fun lc => group.map fun t => (t, lc, ty)).findSome? candidateFetch := by
  induction langs with
  | nil => rfl
  | cons lc ls ih =>
    simp only [scanLangs, List.findSome?, List.flatMap_cons, List.findSome?_append] at ih ⊢
    rw [← scanTracks_eq_findSome?, ← ih]
    cases h : scanTracks group lc ty <;> simp [scanLangs, List.findSome?, h, Option.or]

theorem scanSources_eq_specOrderedScan (sources : List (List Track × Str)) (langs : List Str) :
    scanSources sources langs = specOrderedScan sources langs := by
  induction sources with
  | nil => rfl
  | cons gt ss ih =>
    simp only [scanSources, List.findSome?, specOrderedScan, scanOrder,
      List.flatMap_cons, List.findSome?_append] at ih ⊢
    rw [← scanLangs_eq_findSome?, ← ih]
    cases h : scanLangs gt.1 gt.2 langs <;>
      simp [scanSources, List.findSome?, h, Option.or]

/-! ## Claim C1 -/

/-- Claim C1: the transcript resolver tries the three acquisition methods in
fixed priority order: if method 1 raises internally, method 2 is attempted;
if method 2 also fails, method 3 is attempted; NotFound is returned only
once all three methods are exhausted; the loop stops at the first method
returning a non-empty segment sequence; and no exception escapes — the
resolver is a total function whose failure value is the explicit NotFound. -/
theorem C1_resolver_fallback_order (o1 o2 o3 : MethodOutcome) :
    (o1 = MethodOutcome.raises → 2 ∈ (resolveModel o1 o2 o3).2) ∧
    (o1 = MethodOutcome.raises → attemptOk o2 = none →
      3 ∈ (resolveModel o1 o2 o3).2) ∧
    (attemptOk o1 = none → attemptOk o2 = none → attemptOk o3 = none →
      resolveModel o1 o2 o3 = (none, [1, 2, 3])) ∧
    ((resolveModel o1 o2 o3).1 = none → (resolveModel o1 o2 o3).2 = [1, 2, 3]) ∧
    (∀ s, attemptOk o1 = some s → resolveModel o1 o2 o3 = (some s, [1])) ∧
    ((resolveModel o1 o2 o3).1 = none ∨
      ∃ s, (resolveModel o1 o2 o3).1 = some s ∧ s ≠ []) := by
  refine ⟨?_, ?_, ?_, ?_, ?_, ?_⟩
  · intro h
    subst h
    rcases h2 : attemptOk o2 with _ | s2 <;>
      rcases h3 : attemptOk o3 with _ | s3 <;>
      simp [resolveModel, attemptOk_raises, h2, h3]
  · intro h h2
    subst h
    rcases h3 : attemptOk o3 with _ | s3 <;>
      simp [resolveModel, attemptOk_raises, h2, h3]
  · intro h1 h2 h3
    simp [resolveModel, h1, h2, h3]
  · rcases h1 : attemptOk o1 with _ | s1 <;>
      rcases h2 : attemptOk o2 with _ | s2 <;>
      rcases h3 : attemptOk o3 with _ | s3 <;>
      simp [resolveModel, h1, h2, h3]
  · intro s hs
    simp [resolveModel, hs]
  · rcases h1 : attemptOk o1 with _ | s1 <;>
      rcases h2 : attemptOk o2 with _ | s2 <;>
      rcases h3 : attemptOk o3 with _ | s3 <;>
      simp [resolveModel, h1, h2, h3]
    · exact attemptOk_ne_nil h3
    · exact attemptOk_ne_nil h2
    · exact attemptOk_ne_nil h2
    · exact attemptOk_ne_nil h1
    · exact attemptOk_ne_nil h1
    · exact attemptOk_ne_nil h1
    · exact attemptOk_ne_nil h1

/-- Witness for C1 at concrete outcomes: methods 1 and 2 raise, method 3
returns a non-empty sequence, and the all-fail case returns NotFound. -/
theorem C1_resolver_fallback_order_witness :
    2 ∈ (resolveModel MethodOutcome.raises MethodOutcome.raises
          (MethodOutcome.returns [Segment.obj 0 1 (str "x")])).2 ∧
    3 ∈ (resolveModel MethodOutcome.raises MethodOutcome.raises
          (MethodOutcome.returns [Segment.obj 0 1 (str "x")])).2 ∧
    resolveModel MethodOutcome.raises MethodOutcome.raises MethodOutcome.raises
      = (none, [1, 2, 3]) :=
  ⟨(C1_resolver_fallback_order _ _ _).1 rfl,
   (C1_resolver_fallback_order _ _ _).2.1 rfl rfl,
   (C1_resolver_fallback_order _ _ _).2.2.1 rfl rfl rfl⟩

/-! ## Claim C2 -/

/-- Claim C2 is refuted: with a human-authored `en` track, an auto-generated
`es` track and preference list `["es","en"]` (prefer_human true), the
nesting order asserted by the claim — preference list outermost, groups
inner — selects the Spanish auto track, but the code
(src/extract_transcript.py:283-285) walks the groups in the OUTER loop and
selects the English human track. -/
theorem C2_counterexample :
    extract_transcript_youtube_api (some [tkEnManual, tkEsAuto])
        (some [str "es", str "en"]) true =
      (some [Segment.obj 0 1 (str "hello")], str "English", str "Manual") ∧
    claimNestScan [([tkEnManual], str "Manual"), ([tkEsAuto], str "Auto-generated")]
        [str "es", str "en"] =
      some ([Segment.obj 0 1 (str "hola")], str "Spanish", str "Auto-generated") ∧
    (str "English", str "Manual") ≠ (str "Spanish", str "Auto-generated") :=
  ⟨by decide, by decide, by decide⟩

/-- Claim C2 (amended): the catalog-mediated scan walks the track GROUPS in
the outer loop (human then auto when `prefer_human`, the reverse otherwise)
and, per group, the caller's preference list in order, selecting the first
candidate in this group-outermost lexicographic order whose language code
matches exactly and whose fetch succeeds.  The claim's concrete example is
unaffected: with tracks fr, en, es in one group and preference list
`["es","en"]`, the `es` track is selected, not `en` or the first-listed
`fr`. -/
theorem C2_preference_selection (sources : List (List Track × Str)) (langs : List Str) :
    scanSources sources langs = specOrderedScan sources langs ∧
    extract_transcript_youtube_api (some [tkFrManual, tkEnManual, tkEsManual])
        (some [str "es", str "en"]) true =
      (some [Segment.obj 0 1 (str "hola")], str "Spanish", str "Manual") :=
  ⟨scanSources_eq_specOrderedScan sources langs, by decide⟩

/-! ## Claim C3 -/

/-- Claim C3: a successful resolution carries a non-empty segment sequence:
`extract_and_save` returns success only together with a record whose stored
segment list is non-empty; a resolver result that is non-null but
zero-length is treated exactly like the not-found signal; and in the
modelled three-method loop an empty first result lets method 2 be
attempted. -/
theorem C3_success_nonempty (env : ExtractEnv) (url : Str)
    (languages : Option (List Str)) (pm it : Bool) :
    ((extract_and_save env url languages pm it).1 = true →
      ∃ r, (extract_and_save env url languages pm it).2.2 = some r ∧
        r.transcript_raw ≠ [] ∧ r.segment_count ≠ 0) ∧
    ((extract_transcript_youtube_api env.catalog languages pm).1 = some [] →
      (extract_and_save env url languages pm it).1 = false ∧
      (extract_and_save env url languages pm it).2.2 = none ∧
      (extract_and_save env url languages pm it).2.1 ∈
        [str "Invalid YouTube URL", notFoundMessage]) ∧
    (∀ o2 o3, 2 ∈ (resolveModel (MethodOutcome.returns []) o2 o3).2) := by
  refine ⟨?_, ?_, ?_⟩
  · intro h
    cases hv : extract_video_id url with
    | none => simp [extract_and_save, hv] at h
    | some vid =>
      rcases he : extract_transcript_youtube_api env.catalog languages pm with ⟨tr, l, ty⟩
      cases tr with
      | none => simp [extract_and_save, hv, he] at h
      | some transcript =>
        cases transcript with
        | nil => simp [extract_and_save, hv, he] at h
        | cons a t =>
          simp only [extract_and_save, hv, he, List.isEmpty_cons, Bool.false_eq_true,
            if_false]
          exact ⟨_, rfl, by simp, by simp⟩
  · intro he
    rcases he2 : extract_transcript_youtube_api env.catalog languages pm with ⟨tr, l, ty⟩
    rw [he2] at he; simp only at he; subst he
    cases hv : extract_video_id url with
    | none => simp [extract_and_save, hv]
    | some vid => simp [extract_and_save, hv, he2]
  · intro o2 o3
    rcases h2 : attemptOk o2 with _ | s2 <;>
      rcases h3 : attemptOk o3 with _ | s3 <;>
      simp [resolveModel, attemptOk_returns_nil, h2, h3]

/-- Witness for C3: in the happy-path environment with a short-link URL,
`extract_and_save` succeeds and the record's segments are non-empty; and
a resolver environment whose only track fetches an empty list drives
`extract_and_save` to the failure triple. -/
theorem C3_success_nonempty_witness :
    ((extract_and_save envHappy (str "https://youtu.be/dQw4w9WgXcQ")
        (some [str "en"]) true true).1 = true ∧
      ∃ r, (extract_and_save envHappy (str "https://youtu.be/dQw4w9WgXcQ")
        (some [str "en"]) true true).2.2 = some r ∧
        r.transcript_raw ≠ [] ∧ r.segment_count ≠ 0) :=
  ⟨by decide,
   (C3_success_nonempty envHappy (str "https://youtu.be/dQw4w9WgXcQ")
      (some [str "en"]) true true).1 (by decide)⟩

/-! ## Claim C4 helper lemmas: every returned capture is non-empty -/

theorem tryAltsAt_ne_nil {s cap : Str} (h : tryAltsAt s = some cap) : cap ≠ [] := by
  unfold tryAltsAt at h
  rcases List.exists_of_findSome?_eq_some h with ⟨lit, _, hlit⟩
  simp only at hlit
  split at hlit
  · rename_i hcond
    cases hlit
    intro hnil
    rw [hnil] at hcond
    simp at hcond
  · cases hlit

theorem searchPat1_ne_nil : ∀ {s cap : Str}, searchPat1 s = some cap → cap ≠ [] := by
  intro s
  induction s with
  | nil => intro cap h; cases h
  | cons c rest ih =>
    intro cap h
    rw [searchPat1] at h
    cases ht : tryAltsAt (c :: rest) with
    | some x =>
      rw [ht] at h
      cases h
      exact tryAltsAt_ne_nil ht
    | none =>
      rw [ht] at h
      exact ih h

theorem vCaptureAt_inv {c : Char} {rest : Str} {best : Option Str}
    (hb : ∀ b, best = some b → b ≠ []) :
    ∀ b, vCaptureAt c rest best = some b → b ≠ [] := by
  intro b hb'
  unfold vCaptureAt at hb'
  split at hb'
  · split at hb'
    · split at hb'
      · exact hb b hb'
      · rename_i hcond
        cases hb'
        intro hnil
        rw [hnil] at hcond
        simp at hcond
    · exact hb b hb'
  · exact hb b hb'

theorem lastVCapture_ne_nil : ∀ {s : Str} {best : Option Str},
    (∀ b, best = some b → b ≠ []) →
    ∀ {cap}, lastVCapture s best = some cap → cap ≠ [] := by
  intro s
  induction s with
  | nil => intro best hb cap h; exact hb cap h
  | cons c rest ih =>
    intro best hb cap h
    rw [lastVCapture] at h
    split at h
    · exact hb cap h
    · exact ih (fun b hb' => vCaptureAt_inv hb b hb') h

theorem searchPat2_ne_nil : ∀ {s cap : Str}, searchPat2 s = some cap → cap ≠ [] := by
  intro s
  induction s with
  | nil => intro cap h; cases h
  | cons c rest ih =>
    intro cap h
    rw [searchPat2] at h
    split at h
    · cases hl : lastVCapture ((c :: rest).drop 18) none with
      | some x =>
        rw [hl] at h
        cases h
        exact lastVCapture_ne_nil (by intro b hb; cases hb) hl
      | none =>
        rw [hl] at h
        exact ih h
    · exact ih h

theorem extract_video_id_ne_nil {url token : Str}
    (h : extract_video_id url = some token) : token ≠ [] := by
  unfold extract_video_id at h
  cases h1 : searchPat1 url with
  | some x =>
    rw [h1] at h
    cases h
    exact searchPat1_ne_nil h1
  | none =>
    rw [h1] at h
    exact searchPat2_ne_nil h

/-! ## Claim C4 -/

/-- Claim C4 is refuted on the wrong-length half: the code applies no length
check to the captured token — `"https://youtu.be/abc"` yields the
3-character token `"abc"`, not NotFound. -/
theorem C4_counterexample :
    extract_video_id (str "https://youtu.be/abc") = some (str "abc") ∧
    (str "abc").length ≠ 11 :=
  ⟨by decide, by decide⟩

/-- Claim C4 (amended): the parser is a total function (never raises) that
returns NotFound (`None`) exactly when neither pattern finds a non-empty
token — e.g. for a URL without any recognized shape, or for a recognized
shape whose identifier is missing; when a token is returned it is non-empty,
but its length is NOT validated against the platform's fixed 11 characters. -/
theorem C4_malformed_urls (url token : Str)
    (h : extract_video_id url = some token) :
    token ≠ [] ∧
    extract_video_id (str "https://example.com") = none ∧
    extract_video_id (str "https://www.youtube.com/watch?v=") = none :=
  ⟨extract_video_id_ne_nil h, by decide, by decide⟩

/-- Witness for C4 at a concrete URL whose token is returned. -/
theorem C4_malformed_urls_witness :
    extract_video_id (str "https://youtu.be/abc") = some (str "abc") ∧
    str "abc" ≠ [] :=
  ⟨by decide,
   (C4_malformed_urls (str "https://youtu.be/abc") (str "abc") (by decide)).1⟩

/-! ## Claim C5 -/

/-- Claim C5 is refuted on its "every malformed string yields 0" half: in
`"PT1H?M"` the hours component is accumulated before the minutes `int()`
raises, and the swallowed exception keeps the partial sum — the parser
yields 3600, not 0. -/
theorem C5_counterexample :
    parse_iso8601_duration (str "PT1H?M") = 3600 ∧ (3600 : Int) ≠ 0 :=
  ⟨by decide, by decide⟩

/-- Claim C5 (amended): the parser strips the fixed "PT" prefix and
sequentially consumes optional hours/minutes/seconds components terminated
by 'H'/'M'/'S', each absent component contributing zero: "PT1H2M3S" yields
3723 seconds, "PT45S" yields 45, "PT2M" yields 120; a missing duration or a
string without the "PT" prefix yields 0; and no exception escapes — but a
component malformed after earlier components were consumed yields the
partial sum accumulated so far, not necessarily 0. -/
theorem C5_duration_parsing :
    parse_iso8601_duration (str "PT1H2M3S") = 3723 ∧
    parse_iso8601_duration (str "PT45S") = 45 ∧
    parse_iso8601_duration (str "PT2M") = 120 ∧
    (∀ s : Str, (str "PT").isPrefixOf s = false → parse_iso8601_duration s = 0) ∧
    parse_iso8601_duration (str "PT1H?M") = 3600 := by
  refine ⟨by decide, by decide, by decide, ?_, by decide⟩
  intro s h
  simp [parse_iso8601_duration, h]

/-- Witness for C5 at the concrete unprefixed string "4M33S". -/
theorem C5_duration_parsing_witness :
    (str "PT").isPrefixOf (str "4M33S") = false ∧
    parse_iso8601_duration (str "4M33S") = 0 :=
  ⟨by decide, C5_duration_parsing.2.2.2.1 (str "4M33S") (by decide)⟩

/-! ## Claim C9 -/

/-- Claim C9 is refuted on its "every field is present" half: when the page
request raises, the error handler (src/extract_transcript.py:160) returns
only the three keys title/description/duration — `upload_date` and
`view_count` are absent from the record. -/
theorem C9_counterexample :
    (get_video_info_from_page none).upload_date = none ∧
    (get_video_info_from_page none).view_count = none ∧
    get_video_info_from_page none =
      { title := str "Unknown Title", description := [], duration := 0
        upload_date := none, view_count := none } :=
  ⟨rfl, rfl, rfl⟩

/-- Claim C9 (amended): the metadata fetcher never fails hard — it is a total
function returning a best-effort record.  When the page is retrieved, all
five fields are present, each defaulting independently (title
"Unknown Title", description "", duration 0, upload date "", view count 0
when the respective strategies yield nothing); but when the page request
itself raises, the returned record carries only the three defaulted fields
title/description/duration, with `upload_date` and `view_count` absent. -/
theorem C9_metadata_best_effort (p : PageData) :
    (get_video_info_from_page (some p)).upload_date.isSome = true ∧
    (get_video_info_from_page (some p)).view_count.isSome = true ∧
    get_video_info_from_page (some ⟨none, none, none, []⟩) =
      { title := str "Unknown Title", description := [], duration := 0
        upload_date := some [], view_count := some 0 } ∧
    get_video_info_from_page none =
      { title := str "Unknown Title", description := [], duration := 0
        upload_date := none, view_count := none } :=
  ⟨rfl, rfl, rfl, rfl⟩

/-! ## Rendering helper lemmas -/

/-- Every member of a joined list occurs verbatim in the join. -/
theorem mem_infix_joinWith (sep : Char) (ts : List Str) (t : Str) (ht : t ∈ ts) :
    t <:+: joinWith sep ts := by
  induction ts with
  | nil => cases ht
  | cons t0 rest ih =>
    rcases List.mem_cons.mp ht with h | h
    · subst h
      cases rest with
      | nil => exact List.infix_refl t
      | cons r rs => exact (List.prefix_append t (sep :: joinWith sep (r :: rs))).isInfix
    · cases rest with
      | nil => cases h
      | cons r rs =>
        have h1 : t <:+: joinWith sep (r :: rs) := ih h
        have h2 : joinWith sep (r :: rs) <:+: joinWith sep (t0 :: r :: rs) := by
          show joinWith sep (r :: rs) <:+: t0 ++ sep :: joinWith sep (r :: rs)
          exact ((List.suffix_cons sep _).trans (List.suffix_append t0 _)).isInfix
        exact h1.trans h2

/-- The accumulation loop is the concatenation of the per-segment pieces. -/
theorem formatLoop_eq_flatten (inc : Bool) (segs : List Segment) :
    formatLoop segs inc =
      (segs.map fun g => if inc then segLine g else g.textVal ++ [' ']).flatten := by
  suffices h : ∀ acc : Str,
      List.foldl
        (fun acc g =>
          if inc then acc ++ segLine g else acc ++ g.textVal ++ [' '])
        acc segs =
      acc ++ (segs.map fun g => if inc then segLine g else g.textVal ++ [' ']).flatten by
    simpa [formatLoop] using h []
  induction segs with
  | nil => intro acc; simp
  | cons g gs ih =>
    intro acc
    rw [List.foldl_cons, ih]
    cases inc <;> simp [List.append_assoc]

/-- Concatenating pieces each ending in the separator is the separator-join
plus one trailing separator. -/
theorem flatten_sep_append (sep : Char) (ts : List Str) (h : ts ≠ []) :
    (ts.map fun t => t ++ [sep]).flatten = joinWith sep ts ++ [sep] := by
  induction ts with
  | nil => cases h rfl
  | cons t rest ih =>
    cases rest with
    | nil => simp [joinWith]
    | cons r rs =>
      rw [List.map_cons, List.flatten_cons, ih (by simp)]
      show t ++ [sep] ++ (joinWith sep (r :: rs) ++ [sep]) =
        (t ++ sep :: joinWith sep (r :: rs)) ++ [sep]
      simp [List.append_assoc]

theorem pyStripRight_append_space (s : Str) (c : Char) (hc : isPySpace c = true) :
    pyStripRight (s ++ [c]) = pyStripRight s := by
  simp [pyStripRight, List.reverse_append, List.dropWhile, hc]

theorem pyStrip_append_space (s : Str) (c : Char) (hc : isPySpace c = true) :
    pyStrip (s ++ [c]) = pyStrip s := by
  simp [pyStrip, pyStripRight_append_space s c hc]

theorem pyStripLeft_cons_clean (c : Char) (rest : Str) (hc : isPySpace c = false) :
    pyStripLeft (c :: rest) = c :: rest := by
  simp [pyStripLeft, List.dropWhile, hc]

theorem pyStripRight_endsClean (s : Str) (h : endsClean s = true) :
    pyStripRight s = s := by
  unfold pyStripRight
  cases hr : s.reverse with
  | nil =>
    rw [List.reverse_eq_nil_iff] at hr
    subst hr
    rfl
  | cons c rest =>
    have hlast : s.getLast? = some c := by
      rw [← List.head?_reverse, hr, List.head?_cons]
    have hc : isPySpace c = false := by
      unfold endsClean at h
      rw [hlast] at h
      simpa using h
    rw [List.dropWhile_cons, hc]
    simp [← hr]

/-! ## Claim C6 -/

/-- Claim C6 is refuted: neither rendering decodes HTML entity escapes —
`format_transcript` and `get_plain_text` (src/extract_transcript.py:336-379)
pass the segment text through verbatim, so `"&amp;"` stays `"&amp;"` instead
of becoming `"&"`. -/
theorem C6_counterexample :
    get_plain_text [Segment.obj 0 1 (str "&amp;")] = str "&amp;" ∧
    format_transcript [Segment.obj 0 1 (str "&amp;")] true = str "[00:00] &amp;" ∧
    str "&amp;" ≠ str "&" :=
  ⟨by decide, by decide, by decide⟩

/-- Claim C6 (amended): no HTML entity decoding is applied by the renderers:
every segment's text occurs verbatim (as a contiguous infix) in the
plain-text rendering, a single segment's plain rendering IS its raw text,
and the standard escapes pass through the formatted rendering unchanged. -/
theorem C6_no_entity_decoding (segs : List Segment) (g : Segment) (hg : g ∈ segs) :
    g.textVal <:+: get_plain_text segs ∧
    (∀ t : Str, get_plain_text [Segment.obj 0 1 t] = t) ∧
    format_transcript [Segment.obj 0 1 (str "&lt;&gt;&quot;&#39;")] true =
      str "[00:00] &lt;&gt;&quot;&#39;" := by
  refine ⟨?_, fun t => rfl, by decide⟩
  have hne : segs.isEmpty = false := by
    cases segs
    · cases hg
    · simp
  rw [get_plain_text]
  simp only [hne, Bool.false_eq_true, if_false]
  exact mem_infix_joinWith ' ' _ _ (List.mem_map_of_mem Segment.textVal hg)

/-- Witness for C6 at one concrete segment list. -/
theorem C6_no_entity_decoding_witness :
    Segment.obj 0 1 (str "&amp;") ∈ [Segment.obj 0 1 (str "&amp;")] ∧
    (Segment.obj 0 1 (str "&amp;")).textVal <:+:
      get_plain_text [Segment.obj 0 1 (str "&amp;")] :=
  ⟨by decide, (C6_no_entity_decoding _ _ (by decide)).1⟩

/-! ## Claim C10 -/

/-- Claim C10 is refuted: `format_transcript(…, include_timestamps=False)`
ends by `.strip()`-ping while `get_plain_text` does not, so a trailing
whitespace in the last segment's text survives only in the latter. -/
theorem C10_counterexample :
    format_transcript [Segment.obj 0 1 (str "a ")] false = str "a" ∧
    get_plain_text [Segment.obj 0 1 (str "a ")] = str "a " ∧
    str "a" ≠ str "a " :=
  ⟨by decide, by decide, by decide⟩

/-- Claim C10 (amended): the timestamp-free formatted rendering equals the
plain-text rendering up to Python `strip()`: for every segment list,
`format_transcript segs False = strip (get_plain_text segs)` — the two
coincide exactly whenever the joined text carries no leading or trailing
whitespace, as in the `"a b"` example. -/
theorem C10_format_false_eq_strip_plain (segs : List Segment) :
    format_transcript segs false = pyStrip (get_plain_text segs) ∧
    format_transcript [Segment.obj 0 1 (str "a"), Segment.obj 61 1 (str "b")] false
      = get_plain_text [Segment.obj 0 1 (str "a"), Segment.obj 61 1 (str "b")] := by
  refine ⟨?_, by decide⟩
  cases segs with
  | nil => rfl
  | cons g gs =>
    rw [format_transcript, get_plain_text]
    simp only [List.isEmpty_cons, Bool.false_eq_true, if_false]
    rw [formatLoop_eq_flatten]
    simp only [Bool.false_eq_true, if_false]
    rw [show ((g :: gs).map fun x => x.textVal ++ [' ']) =
          ((g :: gs).map Segment.textVal).map (fun t => t ++ [' ']) from by
        simp [List.map_map],
      flatten_sep_append ' ' _ (by simp),
      pyStrip_append_space _ ' ' (by decide)]

/-! ## Claim C7 helper lemmas -/

theorem endsClean_ne_nil {t : Str} (h : endsClean t = true) : t ≠ [] := by
  intro hnil
  subst hnil
  simp [endsClean] at h

theorem endsClean_append (a b : Str) (hb : endsClean b = true) :
    endsClean (a ++ b) = true := by
  have hbne : b ≠ [] := endsClean_ne_nil hb
  unfold endsClean at hb ⊢
  rw [List.getLast?_append_of_ne_nil a hbne]
  exact hb

theorem endsClean_joinWith (sep : Char) (ts : List Str) (hne : ts ≠ [])
    (h : ∀ t ∈ ts, endsClean t = true) :
    endsClean (joinWith sep ts) = true := by
  induction ts with
  | nil => cases hne rfl
  | cons t rest ih =>
    cases rest with
    | nil => exact h t (by simp)
    | cons r rs =>
      have hJ : endsClean (joinWith sep (r :: rs)) = true :=
        ih (by simp) (fun x hx => h x (by simp [hx]))
      show endsClean (t ++ sep :: joinWith sep (r :: rs)) = true
      rw [show t ++ sep :: joinWith sep (r :: rs)
            = (t ++ [sep]) ++ joinWith sep (r :: rs) from by simp]
      exact endsClean_append _ _ hJ

theorem claimTimestampLine_eq (g : Segment) :
    claimTimestampLine g =
      ('[' :: fmt02d (pyFloorDiv60 g.startVal) ++
        ':' :: fmt02d (pyMod60 g.startVal) ++ [']', ' ']) ++ g.textVal := by
  simp [claimTimestampLine, List.append_assoc]

theorem endsClean_claimTimestampLine (g : Segment)
    (h : endsClean g.textVal = true) :
    endsClean (claimTimestampLine g) = true := by
  rw [claimTimestampLine_eq]
  exact endsClean_append _ _ h

theorem segLine_eq (g : Segment) : segLine g = claimTimestampLine g ++ ['\n'] := by
  simp [segLine, claimTimestampLine, List.append_assoc]

theorem joinWith_lines_cons (g : Segment) (gs : List Segment) :
    ∃ rest : Str, joinWith '\n' ((g :: gs).map claimTimestampLine) = '[' :: rest := by
  cases gs with
  | nil => exact ⟨_, rfl⟩
  | cons r rs => exact ⟨_, rfl⟩

theorem pyStrip_joinWith_lines (segs : List Segment) (hne : segs ≠ [])
    (hok : ∀ g ∈ segs, endsClean g.textVal = true) :
    pyStrip (joinWith '\n' (segs.map claimTimestampLine)) =
      joinWith '\n' (segs.map claimTimestampLine) := by
  have hclean : endsClean (joinWith '\n' (segs.map claimTimestampLine)) = true := by
    apply endsClean_joinWith
    · cases segs with
      | nil => cases hne rfl
      | cons g gs => simp
    · intro t ht
      rcases List.mem_map.mp ht with ⟨g, hg, rfl⟩
      exact endsClean_claimTimestampLine g (hok g hg)
  rw [pyStrip, pyStripRight_endsClean _ hclean]
  cases segs with
  | nil => cases hne rfl
  | cons g gs =>
    rcases joinWith_lines_cons g gs with ⟨rest, hr⟩
    rw [hr]
    exact pyStripLeft_cons_clean '[' rest (by decide)

/-! ## Claim C7 -/

/-- Claim C7 is refuted at a segment whose text ends in whitespace: the
final `.strip()` of the accumulated string (src/extract_transcript.py:362)
trims the last line, so the rendering is not the timestamp followed by the
literal segment text. -/
theorem C7_counterexample :
    format_transcript [Segment.obj 0 1 (str "a ")] true = str "[00:00] a" ∧
    joinWith '\n' ([Segment.obj 0 1 (str "a ")].map claimTimestampLine)
      = str "[00:00] a " ∧
    str "[00:00] a" ≠ str "[00:00] a " :=
  ⟨by decide, by decide, by decide⟩

/-- Claim C7 (amended): for every segment list whose texts are non-empty
and do not end in whitespace — so that the final `.strip()` of the
accumulated string cannot cut into the last line — the formatted rendering
prefixes each segment with a `[MM:SS]` timestamp computed by integer
floor-division of the start offset by 60 for minutes and modulo 60 for
seconds, zero-padded to two digits, followed by a literal space and the
segment text, one segment per line; the example
`{start: 125.0, text: "hello"}` renders as `"[02:05] hello"`
unconditionally. -/
theorem C7_formatted_rendering (segs : List Segment) (hne : segs ≠ [])
    (hok : ∀ g ∈ segs, endsClean g.textVal = true) :
    format_transcript segs true = joinWith '\n' (segs.map claimTimestampLine) ∧
    format_transcript [Segment.dict (some 125) none (some (str "hello"))] true
      = str "[02:05] hello" := by
  refine ⟨?_, by decide⟩
  cases segs with
  | nil => cases hne rfl
  | cons g gs =>
    rw [format_transcript]
    simp only [List.isEmpty_cons, Bool.false_eq_true, if_false]
    rw [formatLoop_eq_flatten]
    rw [show ((g :: gs).map fun x => if true then segLine x else x.textVal ++ [' '])
          = ((g :: gs).map claimTimestampLine).map (fun t => t ++ ['\n']) from by
        simp [List.map_map, segLine_eq, Function.comp],
      flatten_sep_append '\n' _ (by simp),
      pyStrip_append_space _ '\n' (by decide)]
    exact pyStrip_joinWith_lines (g :: gs) (by simp) hok

/-- Witness for C7 at the claim's own example segment. -/
theorem C7_formatted_rendering_witness :
    ([Segment.dict (some 125) none (some (str "hello"))] ≠
        ([] : List Segment)) ∧
    format_transcript [Segment.dict (some 125) none (some (str "hello"))] true
      = joinWith '\n'
          ([Segment.dict (some 125) none (some (str "hello"))].map claimTimestampLine) :=
  ⟨by decide,
   (C7_formatted_rendering [Segment.dict (some 125) none (some (str "hello"))]
      (by decide) (by decide)).1⟩

/-! ## Claim C8 helper lemmas: `re.search` at the three URL shapes -/

theorem isPrefixOf_append_self (l t : Str) : l.isPrefixOf (l ++ t) = true := by
  induction l with
  | nil => simp [List.isPrefixOf]
  | cons c cs ih => simp [List.isPrefixOf, ih]

/-- Identifier characters are never excluded by the capture class. -/
theorem isIdChar_capture {c : Char} (h : isIdChar c = true) : isCaptureChar c = true := by
  cases hb : (c == '&' || c == '\n' || c == '?' || c == '#') with
  | false => simp [isCaptureChar, hb]
  | true =>
    simp only [Bool.or_eq_true, beq_iff_eq] at hb
    rcases hb with ((rfl | rfl) | rfl) | rfl <;> exact absurd h (by decide)

theorem takeWhile_capture_of_idChars (id : Str)
    (hchars : ∀ c ∈ id, isIdChar c = true) :
    id.takeWhile isCaptureChar = id := by
  induction id with
  | nil => rfl
  | cons c cs ih =>
    rw [List.takeWhile_cons, isIdChar_capture (hchars c (by simp)),
      ih (fun x hx => hchars x (by simp [hx]))]
    simp

theorem tryAltsAt_watch (id : Str) (hne : id ≠ [])
    (htw : id.takeWhile isCaptureChar = id) :
    tryAltsAt (str "youtube.com/watch?v=" ++ id) = some id := by
  unfold tryAltsAt altLits
  simp only [List.findSome?]
  rw [show (str "youtube.com/watch?v=" ++ id).drop (str "youtube.com/watch?v=").length
        = id from List.drop_left _ _]
  rw [isPrefixOf_append_self, htw]
  simp [hne]

theorem tryAltsAt_short (id : Str) (hne : id ≠ [])
    (htw : id.takeWhile isCaptureChar = id) :
    tryAltsAt (str "youtu.be/" ++ id) = some id := by
  unfold tryAltsAt altLits
  simp only [List.findSome?]
  have h1 : (str "youtube.com/watch?v=").isPrefixOf (str "youtu.be/" ++ id) = false := by
    simp [str, List.isPrefixOf]
  rw [show (str "youtu.be/" ++ id).drop (str "youtu.be/").length
        = id from List.drop_left _ _]
  rw [h1, isPrefixOf_append_self, htw]
  simp [hne]

theorem tryAltsAt_embed (id : Str) (hne : id ≠ [])
    (htw : id.takeWhile isCaptureChar = id) :
    tryAltsAt (str "youtube.com/embed/" ++ id) = some id := by
  unfold tryAltsAt altLits
  simp only [List.findSome?]
  have h1 : (str "youtube.com/watch?v=").isPrefixOf
      (str "youtube.com/embed/" ++ id) = false := by
    simp [str, List.isPrefixOf]
  have h2 : (str "youtu.be/").isPrefixOf (str "youtube.com/embed/" ++ id) = false := by
    simp [str, List.isPrefixOf]
  rw [show (str "youtube.com/embed/" ++ id).drop (str "youtube.com/embed/").length
        = id from List.drop_left _ _]
  rw [h1, h2, isPrefixOf_append_self, htw]
  simp [hne]

/-- Every alternative literal starts with 'y', so the scan skips any other
character. -/
theorem tryAltsAt_not_y {c : Char} (rest : Str) (hc : c ≠ 'y') :
    tryAltsAt (c :: rest) = none := by
  unfold tryAltsAt altLits
  have h1 : ('y' == c) = false := by simp [Ne.symm hc]
  simp [List.findSome?, str, List.isPrefixOf, h1]

theorem searchPat1_skip (p : Str) (hp : ∀ c ∈ p, c ≠ 'y') (rest : Str) :
    searchPat1 (p ++ rest) = searchPat1 rest := by
  induction p with
  | nil => rfl
  | cons c cs ih =>
    rw [List.cons_append, searchPat1, tryAltsAt_not_y _ (hp c (by simp))]
    exact ih (fun x hx => hp x (by simp [hx]))

theorem searchPat1_watch (id : Str) (hne : id ≠ [])
    (htw : id.takeWhile isCaptureChar = id) :
    searchPat1 (str "https://www.youtube.com/watch?v=" ++ id) = some id := by
  rw [show str "https://www.youtube.com/watch?v="
        = str "https://www." ++ str "youtube.com/watch?v=" from by decide,
    List.append_assoc, searchPat1_skip (str "https://www.") (by decide)]
  show searchPat1 ('y' :: (str "outube.com/watch?v=" ++ id)) = some id
  rw [searchPat1]
  rw [show ('y' :: (str "outube.com/watch?v=" ++ id))
        = str "youtube.com/watch?v=" ++ id from by simp [str],
    tryAltsAt_watch id hne htw]

theorem searchPat1_short (id : Str) (hne : id ≠ [])
    (htw : id.takeWhile isCaptureChar = id) :
    searchPat1 (str "https://youtu.be/" ++ id) = some id := by
  rw [show str "https://youtu.be/"
        = str "https://" ++ str "youtu.be/" from by decide,
    List.append_assoc, searchPat1_skip (str "https://") (by decide)]
  show searchPat1 ('y' :: (str "outu.be/" ++ id)) = some id
  rw [searchPat1]
  rw [show ('y' :: (str "outu.be/" ++ id)) = str "youtu.be/" ++ id from by simp [str],
    tryAltsAt_short id hne htw]

theorem searchPat1_embed (id : Str) (hne : id ≠ [])
    (htw : id.takeWhile isCaptureChar = id) :
    searchPat1 (str "https://www.youtube.com/embed/" ++ id) = some id := by
  rw [show str "https://www.youtube.com/embed/"
        = str "https://www." ++ str "youtube.com/embed/" from by decide,
    List.append_assoc, searchPat1_skip (str "https://www.") (by decide)]
  show searchPat1 ('y' :: (str "outube.com/embed/" ++ id)) = some id
  rw [searchPat1]
  rw [show ('y' :: (str "outube.com/embed/" ++ id))
        = str "youtube.com/embed/" ++ id from by simp [str],
    tryAltsAt_embed id hne htw]

/-! ## Claim C8 -/

/-- Claim C8: for every 11-character identifier over the platform's
alphanumeric/hyphen/underscore alphabet, each of the three recognized URL
shapes — canonical watch-page, short-link, embed — parses back to that
identical identifier. -/
theorem C8_url_shapes (id : Str) (hlen : id.length = 11)
    (hchars : ∀ c ∈ id, isIdChar c = true) :
    extract_video_id (watchURL id) = some id ∧
    extract_video_id (shortURL id) = some id ∧
    extract_video_id (embedURL id) = some id := by
  have hne : id ≠ [] := by
    intro h
    subst h
    simp at hlen
  have htw := takeWhile_capture_of_idChars id hchars
  refine ⟨?_, ?_, ?_⟩
  · rw [watchURL, extract_video_id, searchPat1_watch id hne htw]
  · rw [shortURL, extract_video_id, searchPat1_short id hne htw]
  · rw [embedURL, extract_video_id, searchPat1_embed id hne htw]

/-- Witness for C8 at the concrete identifier "dQw4w9WgXcQ". -/
theorem C8_url_shapes_witness :
    (str "dQw4w9WgXcQ").length = 11 ∧
    extract_video_id (watchURL (str "dQw4w9WgXcQ")) = some (str "dQw4w9WgXcQ") ∧
    extract_video_id (shortURL (str "dQw4w9WgXcQ")) = some (str "dQw4w9WgXcQ") ∧
    extract_video_id (embedURL (str "dQw4w9WgXcQ")) = some (str "dQw4w9WgXcQ") :=
  ⟨by decide, C8_url_shapes (str "dQw4w9WgXcQ") (by decide) (by decide)⟩

end VideoIQ

